import Mathlib

/-!
# USB Power Switch and Filter — firmware core loop, shallow embedding

Embedding of the main control loop of `firmware/main.c` (ATtiny, MIC2545A
load switch).  One loop iteration reads the watchdog-timer flag and the two
input pins, runs button debouncing, fault-flag latching with a timed
acknowledge pulse, and finally drives the power-enable output and the
bi-colour LED.

All 8-bit counters (`now`, `btnTime`, `flagTrigTime`) are modelled as `Nat`
kept below 256 by explicit `% 256`; the C unsigned subtraction
`(uint8_t)(a - b)` is modelled by `sub8`.
-/

namespace UsbSwitch

/-- Logical input levels sampled at the top of one loop iteration.
`wdt` is the watchdog time-out flag (`WDT_TIMEDOUT()`), `btn` is
`btnStateNow = !(PINB & PIN_BUTTON)` (true = pressed), `flag` is
`flagStateNow = !(PINB & PIN_FLAG)` (true = fault line reads low). -/
structure Input where
  wdt : Bool
  btn : Bool
  flag : Bool
deriving Repr, DecidableEq

/-- The loop-local state of `main` plus the latched output-pin levels.
`flagDrive` is true while port B4 is configured as output-low
(`FLAGSET()`), i.e. while the acknowledge pulse drives the fault line;
`powerOut` is true while the EN output is active (B3 low, `POWERON()`). -/
structure State where
  now : Nat
  btnState : Bool
  btnTime : Nat
  flagTriggered : Bool
  flagTrigTime : Nat
  flagSet : Bool
  powerOn : Bool
  debounceOk : Bool
  ledRed : Bool
  ledGreen : Bool
  powerOut : Bool
  flagDrive : Bool
deriving Repr, DecidableEq

/-- `(uint8_t)(a - b)` for `a b < 256`: modular 8-bit subtraction. -/
def sub8 (a b : Nat) : Nat := (a + 256 - b) % 256

/-- `now` after the timer block: `if(WDT_TIMEDOUT()){ ...; now++; }`. -/
def tickNow (s : State) (i : Input) : Nat :=
  if i.wdt then (s.now + 1) % 256 else s.now

/-- The button block of the loop body (`if(btnStateNow){...}else{...}
btnState = btnStateNow;`): debouncing plus the power/acknowledge decision
taken on an accepted press edge. -/
def buttonUpdate (s : State) (btn : Bool) : State :=
  if btn then
    -- Button is currently pressed
    let s₁ :=
      if !s.btnState && s.debounceOk then
        -- just pressed and debounce ready: accept the edge
        if s.flagTriggered then
          { s with debounceOk := false, flagTriggered := false }
        else
          { s with debounceOk := false, powerOn := !s.powerOn }
      else s
    { s₁ with btnTime := s₁.now, btnState := btn }
  else
    -- Not pressed (or bouncing)
    let s₁ :=
      if sub8 s.now s.btnTime ≥ 3 then { s with debounceOk := true } else s
    { s₁ with btnState := btn }

/-- The fault block (`if(flagStateNow){...}`): latch the fault, force the
power off and start/continue driving the acknowledge pulse (`FLAGSET()`). -/
def faultUpdate (s : State) (flag : Bool) : State :=
  if flag then
    let s₁ := if !s.flagSet then { s with flagTrigTime := s.now } else s
    { s₁ with flagTriggered := true, powerOn := false,
              flagDrive := true, flagSet := true }
  else s

/-- The pulse-end block (`if(flagTriggered && flagSet && (uint8_t)(now -
flagTrigTime) >= 2){ FLAGCLEAR(); flagSet = 0; }`). -/
def pulseRelease (s : State) : State :=
  if s.flagTriggered ∧ s.flagSet ∧ sub8 s.now s.flagTrigTime ≥ 2 then
    { s with flagDrive := false, flagSet := false }
  else s

/-- The output block: power enable and LED driven from
`(powerOn, flagTriggered)`. -/
def outputUpdate (s : State) : State :=
  if s.powerOn then
    { s with ledRed := false, ledGreen := true, powerOut := true }
  else
    let s₁ := { s with powerOut := false }
    if s.flagTriggered then { s₁ with ledRed := true, ledGreen := false }
    else { s₁ with ledRed := false, ledGreen := false }

/-- One full loop iteration of `main`'s `while(1)` body. -/
def step (s : State) (i : Input) : State :=
  outputUpdate
    (pulseRelease (faultUpdate (buttonUpdate { s with now := tickNow s i } i.btn) i.flag))

/-- The accepted debounced press edge of an iteration: the condition under
which the inner `if(debounceOk)` body runs (`toggleRequested`). -/
def pressAccepted (s : State) (i : Input) : Bool :=
  i.btn && !s.btnState && s.debounceOk

/-- Run a sequence of loop iterations. -/
def run (s : State) (l : List Input) : State := l.foldl step s

/-- The state after the initialisation code of `main`, before the first
loop iteration: all counters and flags zero, `debounceOk = 1`, LED off,
EN inactive (B3 high), B4 input with pull-up. -/
def initState : State :=
  { now := 0, btnState := false, btnTime := 0, flagTriggered := false,
    flagTrigTime := 0, flagSet := false, powerOn := false, debounceOk := true,
    ledRed := false, ledGreen := false, powerOut := false, flagDrive := false }

/-- The output mapping as the specification words it: `powerEnabled` true →
(red, green, powerOut) = (false, true, true); else fault → (true, false,
false); else (false, false, false).  Used to compare the code's output
block against the spec's table. -/
def specOutputMap (powerOn flagTriggered : Bool) : Bool × Bool × Bool :=
  if powerOn then (false, true, true)
  else if flagTriggered then (true, false, false)
  else (false, false, false)

/-! ### Concrete iteration inputs and input traces

For the scenario traces one loop iteration runs per 16 ms tick, except the
very first iteration, which runs before the watchdog timer has fired for
the first time (`now` is still 0 there). -/

/-- A tick with the button released and the fault line high. -/
def idleIn : Input := ⟨true, false, false⟩

/-- A tick with the button pressed. -/
def pressIn : Input := ⟨true, true, false⟩

/-- A tick with the fault line asserted (low). -/
def faultIn : Input := ⟨true, false, true⟩

/-- First iteration (tick 0), button pressed. -/
def firstPressIn : Input := ⟨false, true, false⟩

/-- First iteration (tick 0), fault asserted. -/
def firstFaultIn : Input := ⟨false, false, true⟩

/-- First iteration (tick 0), nothing happening. -/
def firstIdleIn : Input := ⟨false, false, false⟩

/-- The state after a fault sampled in the first iteration (tick 0). -/
def afterFault : State := step initState firstFaultIn

/-- Scenario A of the specification, read literally: press sampled at
tick 0, release at tick 1, press at tick 2, release at tick 3, press at
tick 4. -/
def scenarioA : List Input :=
  [firstPressIn, idleIn, pressIn, idleIn, pressIn]

/-- Scenario A continued: keep the button released during ticks 5–7 and
press again at tick 8. -/
def scenarioARetry : List Input :=
  scenarioA ++ [idleIn, idleIn, idleIn, pressIn]

/-- Fault asserted at tick 0 and held asserted for `n` further ticks. -/
def faultHeld (n : Nat) : List Input := firstFaultIn :: List.replicate n faultIn

/-- Fault at tick 0, acknowledged by a press at tick 1 with the fault line
already released; nothing during ticks 2–4; fault asserted again at
tick 5. -/
def stuckLowTrace : List Input :=
  [firstFaultIn, pressIn, idleIn, idleIn, idleIn, faultIn]

/-- Two accepted presses: press at tick 0, release during ticks 1–3,
press again at tick 4. -/
def twoPresses : List Input :=
  [firstPressIn, idleIn, idleIn, idleIn, pressIn]

/-- The quiescent state at tick 253, just before the wrap scenario's
button press: reached from `initState` by one first iteration and 253
idle ticks (proved below). -/
def nearWrapState : State := { initState with now := 253 }

end UsbSwitch

namespace UsbSwitch

/-! ## Per-block characterisation lemmas -/

/-- The output block only rewrites the three output latches. -/
theorem outputUpdate_keep (s : State) :
    (outputUpdate s).now = s.now ∧ (outputUpdate s).btnState = s.btnState ∧
    (outputUpdate s).btnTime = s.btnTime ∧
    (outputUpdate s).flagTriggered = s.flagTriggered ∧
    (outputUpdate s).flagTrigTime = s.flagTrigTime ∧
    (outputUpdate s).flagSet = s.flagSet ∧
    (outputUpdate s).powerOn = s.powerOn ∧
    (outputUpdate s).debounceOk = s.debounceOk ∧
    (outputUpdate s).flagDrive = s.flagDrive := by
  unfold outputUpdate
  split_ifs <;> simp

/-- The output block drives the LED pair and the power-enable line exactly
as the specification's output table does. -/
theorem outputUpdate_outputs (s : State) :
    ((outputUpdate s).ledRed, (outputUpdate s).ledGreen, (outputUpdate s).powerOut)
      = specOutputMap s.powerOn s.flagTriggered := by
  unfold outputUpdate specOutputMap
  split_ifs <;> simp_all

/-- The pulse-end block only clears `flagDrive`/`flagSet`. -/
theorem pulseRelease_keep (s : State) :
    (pulseRelease s).now = s.now ∧ (pulseRelease s).btnState = s.btnState ∧
    (pulseRelease s).btnTime = s.btnTime ∧
    (pulseRelease s).flagTriggered = s.flagTriggered ∧
    (pulseRelease s).flagTrigTime = s.flagTrigTime ∧
    (pulseRelease s).powerOn = s.powerOn ∧
    (pulseRelease s).debounceOk = s.debounceOk := by
  unfold pulseRelease
  split_ifs <;> simp

/-- An asserted fault sample latches the trigger and cuts the power. -/
theorem faultUpdate_asserted (s : State) :
    (faultUpdate s true).flagTriggered = true ∧
    (faultUpdate s true).powerOn = false ∧
    (faultUpdate s true).flagSet = true ∧
    (faultUpdate s true).flagDrive = true ∧
    (faultUpdate s true).now = s.now ∧
    (faultUpdate s true).debounceOk = s.debounceOk ∧
    (faultUpdate s true).flagTrigTime = (if !s.flagSet then s.now else s.flagTrigTime) := by
  unfold faultUpdate
  split_ifs <;> simp_all

/-- The button block, written as simultaneous field assignments. -/
theorem buttonUpdate_eq (s : State) (b : Bool) :
    buttonUpdate s b =
      { s with
        btnState := b,
        btnTime := if b then s.now else s.btnTime,
        debounceOk :=
          if b then (if !s.btnState && s.debounceOk then false else s.debounceOk)
          else (if sub8 s.now s.btnTime ≥ 3 then true else s.debounceOk),
        flagTriggered :=
          if b && !s.btnState && s.debounceOk && s.flagTriggered then false
          else s.flagTriggered,
        powerOn :=
          if b && !s.btnState && s.debounceOk && !s.flagTriggered then !s.powerOn
          else s.powerOn } := by
  obtain ⟨now, bs, bt, ft, ftt, fs, po, ok, lr, lg, pw, fd⟩ := s
  unfold buttonUpdate
  cases b <;> cases bs <;> cases ok <;> cases ft <;> split_ifs <;> simp_all


/-! ## Step-level projection lemmas -/

/-- A deasserted fault sample leaves the state untouched. -/
theorem faultUpdate_deasserted (s : State) : faultUpdate s false = s := by
  unfold faultUpdate
  simp

/-- `powerOn` and `flagTriggered` after a full iteration: the fault block
overrides whatever the button block decided. -/
theorem step_power_flag (s : State) (i : Input) :
    (step s i).powerOn
      = (if i.flag then false
         else (buttonUpdate { s with now := tickNow s i } i.btn).powerOn) ∧
    (step s i).flagTriggered
      = (if i.flag then true
         else (buttonUpdate { s with now := tickNow s i } i.btn).flagTriggered) := by
  unfold step
  obtain ⟨-, -, -, h₁, -, -, h₂, -, -⟩ :=
    outputUpdate_keep
      (pulseRelease (faultUpdate (buttonUpdate { s with now := tickNow s i } i.btn) i.flag))
  obtain ⟨-, -, -, h₃, -, h₄, -⟩ :=
    pulseRelease_keep (faultUpdate (buttonUpdate { s with now := tickNow s i } i.btn) i.flag)
  cases hf : i.flag
  · simp_all [faultUpdate_deasserted]
  · obtain ⟨f₁, f₂, -⟩ :=
      faultUpdate_asserted (buttonUpdate { s with now := tickNow s i } i.btn)
    simp_all

/-- `debounceOk` is only touched by the button block. -/
theorem step_debounceOk (s : State) (i : Input) :
    (step s i).debounceOk
      = (buttonUpdate { s with now := tickNow s i } i.btn).debounceOk := by
  unfold step
  obtain ⟨-, -, -, -, -, -, -, h₁, -⟩ :=
    outputUpdate_keep
      (pulseRelease (faultUpdate (buttonUpdate { s with now := tickNow s i } i.btn) i.flag))
  obtain ⟨-, -, -, -, -, -, h₂⟩ :=
    pulseRelease_keep (faultUpdate (buttonUpdate { s with now := tickNow s i } i.btn) i.flag)
  cases hf : i.flag
  · simp_all [faultUpdate_deasserted]
  · obtain ⟨-, -, -, -, -, f₁, -⟩ :=
      faultUpdate_asserted (buttonUpdate { s with now := tickNow s i } i.btn)
    simp_all

/-! ## C1 -/

/-- C1: in every iteration whose raw fault sample is asserted, by the end of
that iteration `flagTriggered` is true, `powerOn` is false, the power-enable
output is inactive and the LED is red, regardless of the prior power state
and of any button press processed in the same iteration. -/
theorem C1_fault_forces_off_same_iteration (s : State) (i : Input)
    (hf : i.flag = true) :
    (step s i).flagTriggered = true ∧ (step s i).powerOn = false ∧
    (step s i).powerOut = false ∧ (step s i).ledRed = true ∧
    (step s i).ledGreen = false := by
  obtain ⟨hp, hq⟩ := step_power_flag s i
  rw [hf] at hp hq
  simp only [if_true] at hp hq
  have ho := outputUpdate_outputs
    (pulseRelease (faultUpdate (buttonUpdate { s with now := tickNow s i } i.btn) i.flag))
  obtain ⟨-, -, -, h₁, -, -, h₂, -, -⟩ :=
    outputUpdate_keep
      (pulseRelease (faultUpdate (buttonUpdate { s with now := tickNow s i } i.btn) i.flag))
  obtain ⟨-, -, -, h₃, -, h₄, -⟩ :=
    pulseRelease_keep (faultUpdate (buttonUpdate { s with now := tickNow s i } i.btn) i.flag)
  obtain ⟨f₁, f₂, -⟩ :=
    faultUpdate_asserted (buttonUpdate { s with now := tickNow s i } i.btn)
  rw [hf] at ho
  unfold step
  rw [hf]
  simp_all [specOutputMap]

/-- C1 witness: fault asserted in the very first iteration from the initial
state. -/
theorem C1_witness :
    (step initState ⟨false, false, true⟩).flagTriggered = true ∧
    (step initState ⟨false, false, true⟩).powerOn = false ∧
    (step initState ⟨false, false, true⟩).powerOut = false ∧
    (step initState ⟨false, false, true⟩).ledRed = true ∧
    (step initState ⟨false, false, true⟩).ledGreen = false :=
  C1_fault_forces_off_same_iteration initState ⟨false, false, true⟩ rfl


/-! ## C7 -/

/-- C7: at the end of every iteration the LED pair and the power-enable
output equal the spec's pure output table applied to the iteration's final
`(powerOn, flagTriggered)`; at most one LED colour is driven; power on →
green + EN active, power off + fault → red + EN inactive, power off + no
fault → LED off + EN inactive. -/
theorem C7_outputs_pure_function (s : State) (i : Input) :
    ((step s i).ledRed, (step s i).ledGreen, (step s i).powerOut)
      = specOutputMap (step s i).powerOn (step s i).flagTriggered ∧
    ((step s i).ledRed && (step s i).ledGreen) = false ∧
    ((step s i).powerOn = true →
      (step s i).ledGreen = true ∧ (step s i).powerOut = true) ∧
    ((step s i).powerOn = false → (step s i).flagTriggered = true →
      (step s i).ledRed = true ∧ (step s i).ledGreen = false ∧
      (step s i).powerOut = false) ∧
    ((step s i).powerOn = false → (step s i).flagTriggered = false →
      (step s i).ledRed = false ∧ (step s i).ledGreen = false ∧
      (step s i).powerOut = false) := by
  unfold step
  generalize (pulseRelease
    (faultUpdate (buttonUpdate { s with now := tickNow s i } i.btn) i.flag)) = t
  cases hp : t.powerOn <;> cases hq : t.flagTriggered <;>
    simp_all [specOutputMap, outputUpdate]

/-- C7 witness: first iteration from the initial state with no inputs. -/
theorem C7_witness :
    ((step initState ⟨true, false, false⟩).ledRed,
     (step initState ⟨true, false, false⟩).ledGreen,
     (step initState ⟨true, false, false⟩).powerOut)
      = specOutputMap (step initState ⟨true, false, false⟩).powerOn
          (step initState ⟨true, false, false⟩).flagTriggered ∧
    ((step initState ⟨true, false, false⟩).ledRed &&
     (step initState ⟨true, false, false⟩).ledGreen) = false :=
  ⟨(C7_outputs_pure_function initState ⟨true, false, false⟩).1,
   (C7_outputs_pure_function initState ⟨true, false, false⟩).2.1⟩

/-! ## C9 -/

/-- One iteration preserves the mutual exclusion of `powerOn` and
`flagTriggered`. -/
theorem step_mutex (s : State) (i : Input)
    (h : (s.powerOn && s.flagTriggered) = false) :
    ((step s i).powerOn && (step s i).flagTriggered) = false := by
  obtain ⟨hp, hq⟩ := step_power_flag s i
  rw [hp, hq, buttonUpdate_eq]
  cases hf : i.flag
  · simp only [if_neg]
    obtain ⟨now, bs, bt, ft, ftt, fs, po, ok, lr, lg, pw, fd⟩ := s
    cases i.btn <;> cases bs <;> cases ok <;> cases ft <;> simp_all
  · simp

/-- C9: in every state reachable from the all-zero initial state,
`powerOn` and `flagTriggered` are never both true at the point where the
outputs are driven. -/
theorem C9_power_fault_mutex (l : List Input) :
    ((run initState l).powerOn && (run initState l).flagTriggered) = false := by
  suffices h : ∀ (l : List Input) (s : State),
      (s.powerOn && s.flagTriggered) = false →
      ((run s l).powerOn && (run s l).flagTriggered) = false by
    exact h l initState rfl
  intro l
  induction l with
  | nil => intro s hs; exact hs
  | cons i t ih =>
      intro s hs
      exact ih (step s i) (step_mutex s i hs)


/-! ## C2 -/

/-- C2: with no fault sample in the iteration, an accepted press while
`flagTriggered` is set clears the trigger and leaves `powerOn` unchanged;
`powerOn` can only become true through an accepted press taken while
`flagTriggered` is already clear; and while `flagTriggered` is set no
single iteration can turn the power on. -/
theorem C2_ack_press_then_power_press (s : State) (i : Input) :
    (i.flag = false → pressAccepted s i = true → s.flagTriggered = true →
      (step s i).flagTriggered = false ∧ (step s i).powerOn = s.powerOn) ∧
    ((step s i).powerOn = true →
      s.powerOn = true ∨ (pressAccepted s i = true ∧ s.flagTriggered = false)) ∧
    (s.flagTriggered = true → (step s i).powerOn = true → s.powerOn = true) := by
  obtain ⟨hp, hq⟩ := step_power_flag s i
  rw [buttonUpdate_eq] at hp hq
  unfold pressAccepted
  obtain ⟨now, bs, bt, ft, ftt, fs, po, ok, lr, lg, pw, fd⟩ := s
  cases hf : i.flag <;> cases hb : i.btn <;> cases bs <;> cases ok <;>
    cases ft <;> cases po <;> simp_all


/-! ## C8 -/

/-- One idle tick in the quiescent state only advances `now`. -/
theorem step_idle (k : Nat) :
    step { initState with now := k } idleIn
      = { initState with now := (k + 1) % 256 } := by
  by_cases h : sub8 ((k + 1) % 256) 0 ≥ 3
  · simp [step, tickNow, idleIn, initState, buttonUpdate, faultUpdate,
      pulseRelease, outputUpdate, h]
  · simp [step, tickNow, idleIn, initState, buttonUpdate, faultUpdate,
      pulseRelease, outputUpdate, h]

/-- Idling for `n` ticks from the initial state only advances `now`. -/
theorem idle_reach (n : Nat) :
    run initState (List.replicate n idleIn) = { initState with now := n % 256 } := by
  induction n with
  | zero => simp [run, initState]
  | succ m ih =>
      rw [List.replicate_succ', run, List.foldl_append]
      rw [show (List.replicate m idleIn).foldl step initState
            = run initState (List.replicate m idleIn) from rfl, ih]
      simp only [List.foldl_cons, List.foldl_nil, step_idle]
      have : m % 256 + 1 = (m + 1) % 256 ∨ (m % 256 + 1) % 256 = (m + 1) % 256 := by omega
      congr 1
      omega

/-- The quiescent tick-253 state is reachable from `initState`. -/
theorem nearWrapState_reach :
    run initState (firstIdleIn :: List.replicate 253 idleIn) = nearWrapState := by
  rw [run, List.foldl_cons]
  rw [show step initState firstIdleIn = initState from by decide]
  rw [show (List.replicate 253 idleIn).foldl step initState
        = run initState (List.replicate 253 idleIn) from rfl, idle_reach]
  rfl


/-- C8: the elapsed-time computation is 8-bit modular subtraction, so it
yields the true elapsed tick count across the 255 → 0 wrap for intervals
shorter than 128 ticks; concretely, for a press sampled at tick 254 the
debounce window is not yet complete at tick 0 (elapsed 2) and completes at
tick 1 (elapsed 3), with no false-positive or false-negative readiness. -/
theorem C8_wraparound_elapsed :
    (∀ b d : Nat, b < 256 → d < 128 → sub8 ((b + d) % 256) b = d) ∧
    run initState (firstIdleIn :: List.replicate 253 idleIn) = nearWrapState ∧
    ((run nearWrapState [pressIn]).now = 254 ∧
     (run nearWrapState [pressIn]).btnTime = 254 ∧
     (run nearWrapState [pressIn]).debounceOk = false) ∧
    ((run nearWrapState [pressIn, idleIn, idleIn]).now = 0 ∧
     (run nearWrapState [pressIn, idleIn, idleIn]).debounceOk = false) ∧
    ((run nearWrapState [pressIn, idleIn, idleIn, idleIn]).now = 1 ∧
     (run nearWrapState [pressIn, idleIn, idleIn, idleIn]).debounceOk = true) := by
  refine ⟨fun b d hb hd => ?_, nearWrapState_reach, by decide, by decide, by decide⟩
  unfold sub8
  omega

/-- C8 witness: the modular subtraction at the wrap, `b = 254`, `d = 3`. -/
theorem C8_witness : sub8 ((254 + 3) % 256) 254 = 3 :=
  C8_wraparound_elapsed.1 254 3 (by norm_num) (by norm_num)


/-! ## C5 -/

/-- An accepted press clears `debounceOk` for the rest of the iteration. -/
theorem pressAccepted_clears_debounce (s : State) (i : Input)
    (h : pressAccepted s i = true) : (step s i).debounceOk = false := by
  rw [step_debounceOk, buttonUpdate_eq]
  simp only [pressAccepted, Bool.and_eq_true, Bool.not_eq_eq_eq_not,
    Bool.not_true] at h
  obtain ⟨⟨hb, hbs⟩, hok⟩ := h
  simp [hb, hbs, hok]

/-- `debounceOk` can only be (re)established by an iteration whose button
sample is released and whose elapsed time since `btnTime` is at least 3
ticks; otherwise it can only persist, and never across an accepted press. -/
theorem debounce_ready_source (s : State) (i : Input)
    (h : (step s i).debounceOk = true) :
    (i.btn = false ∧ sub8 (tickNow s i) s.btnTime ≥ 3) ∨
    (s.debounceOk = true ∧ pressAccepted s i = false) := by
  rw [step_debounceOk, buttonUpdate_eq] at h
  simp only [pressAccepted]
  cases hb : i.btn
  · rw [hb] at h
    simp only [Bool.false_eq_true, if_false] at h
    by_cases hd : sub8 (tickNow s i) s.btnTime ≥ 3
    · exact Or.inl ⟨rfl, hd⟩
    · rw [if_neg hd] at h
      exact Or.inr ⟨h, by simp⟩
  · rw [hb] at h
    simp only [if_true] at h
    by_cases hc : (!s.btnState && s.debounceOk) = true
    · rw [if_pos hc] at h
      exact absurd h (by simp)
    · rw [if_neg hc] at h
      refine Or.inr ⟨h, ?_⟩
      simp only [Bool.and_eq_true, not_and] at hc ⊢
      simp only [h, Bool.and_true] at hc ⊢
      simpa using hc


/-- Running one more iteration of a trace. -/
theorem run_take_succ (s : State) (l : List Input) (n : Nat)
    (h : n < l.length) :
    run s (l.take (n + 1)) = step (run s (l.take n)) l[n] := by
  have ht : l.take (n + 1) = l.take n ++ [l[n]] := by
    rw [List.take_succ, List.getElem?_eq_getElem h]
    rfl
  show (l.take (n + 1)).foldl step s = step ((l.take n).foldl step s) l[n]
  rw [ht, List.foldl_append]
  rfl

/-- If `debounceOk` goes from false at position `a` to true at position
`b` of a trace, some iteration in between sampled the button released
with at least 3 ticks elapsed since `btnTime`. -/
theorem debounce_rise_exists (s : State) (l : List Input) :
    ∀ b a, a ≤ b → b ≤ l.length →
    (run s (l.take a)).debounceOk = false →
    (run s (l.take b)).debounceOk = true →
    ∃ m, ∃ hm : m < l.length, a ≤ m ∧ m < b ∧ l[m].btn = false ∧
      sub8 (tickNow (run s (l.take m)) l[m]) (run s (l.take m)).btnTime ≥ 3 := by
  intro b
  induction b with
  | zero =>
      intro a ha _ h0 h1
      interval_cases a
      rw [h0] at h1
      exact absurd h1 (by simp)
  | succ n ih =>
      intro a ha hb h0 h1
      rcases Nat.lt_or_ge a (n + 1) with halt | hage
      · have hn : n < l.length := hb
        rw [run_take_succ s l n hn] at h1
        rcases debounce_ready_source _ _ h1 with ⟨hbtn, hsub⟩ | ⟨hok, -⟩
        · exact ⟨n, hn, by omega, by omega, hbtn, hsub⟩
        · obtain ⟨m, hm, h₁, h₂, h₃, h₄⟩ :=
            ih a (by omega) (by omega) h0 hok
          exact ⟨m, hm, h₁, by omega, h₃, h₄⟩
      · have : a = n + 1 := by omega
        rw [this, h1] at h0
        exact absurd h0 (by simp)


/-- C5: a toggle event (`pressAccepted`) fires exactly on a raw rising
edge with `debounceOk` set; acceptance clears `debounceOk`; `debounceOk`
is re-established only by an iteration with the button released and at
least 3 ticks elapsed since the last pressed sample; hence between any
two accepted presses of a trace lies a released iteration at least 3
ticks after the end of the earlier press, so a press edge is accepted at
most once per press-release cycle. -/
theorem C5_debounce_protocol :
    (∀ (s : State) (i : Input),
       pressAccepted s i = true ↔
         (i.btn = true ∧ s.btnState = false ∧ s.debounceOk = true)) ∧
    (∀ (s : State) (i : Input),
       pressAccepted s i = true → (step s i).debounceOk = false) ∧
    (∀ (s : State) (i : Input), (step s i).debounceOk = true →
       (i.btn = false ∧ sub8 (tickNow s i) s.btnTime ≥ 3) ∨
       (s.debounceOk = true ∧ pressAccepted s i = false)) ∧
    (∀ (s : State) (l : List Input) (j k : Nat)
       (hj : j < l.length) (hk : k < l.length), j < k →
       pressAccepted (run s (l.take j)) l[j] = true →
       pressAccepted (run s (l.take k)) l[k] = true →
       ∃ m, ∃ hm : m < l.length, j < m ∧ m < k ∧ l[m].btn = false ∧
         sub8 (tickNow (run s (l.take m)) l[m])
           (run s (l.take m)).btnTime ≥ 3) := by
  refine ⟨?_, pressAccepted_clears_debounce, debounce_ready_source, ?_⟩
  · intro s i
    simp [pressAccepted, Bool.and_eq_true, and_assoc]
  · intro s l j k hj hk hjk ha hb
    have hb' : (run s (l.take k)).debounceOk = true := by
      simp only [pressAccepted, Bool.and_eq_true] at hb
      exact hb.2
    have ha' : (run s (l.take (j + 1))).debounceOk = false := by
      rw [run_take_succ s l j hj]
      exact pressAccepted_clears_debounce _ _ ha
    obtain ⟨m, hm, h₁, h₂, h₃, h₄⟩ :=
      debounce_rise_exists s l k (j + 1) (by omega) (by omega) ha' hb'
    exact ⟨m, hm, by omega, h₂, h₃, h₄⟩

/-- C5 witness: presses accepted at positions 0 and 4 of `twoPresses`
have a qualifying released iteration strictly between them. -/
theorem C5_witness :
    ∃ m, ∃ hm : m < twoPresses.length, 0 < m ∧ m < 4 ∧
      twoPresses[m].btn = false ∧
      sub8 (tickNow (run initState (twoPresses.take m)) twoPresses[m])
        (run initState (twoPresses.take m)).btnTime ≥ 3 :=
  C5_debounce_protocol.2.2.2 initState twoPresses 0 4 (by decide) (by decide)
    (by decide) (by decide) (by decide)


/-! ## Whole-record forms of the remaining blocks -/

/-- The fault block as simultaneous field assignments. -/
theorem faultUpdate_eq (s : State) (f : Bool) :
    faultUpdate s f =
      { s with
        flagTrigTime := if f && !s.flagSet then s.now else s.flagTrigTime,
        flagTriggered := if f then true else s.flagTriggered,
        powerOn := if f then false else s.powerOn,
        flagDrive := if f then true else s.flagDrive,
        flagSet := if f then true else s.flagSet } := by
  obtain ⟨now, bs, bt, ft, ftt, fs, po, ok, lr, lg, pw, fd⟩ := s
  unfold faultUpdate
  cases f <;> cases fs <;> simp

/-- The pulse-end block as simultaneous field assignments. -/
theorem pulseRelease_eq (s : State) :
    pulseRelease s =
      { s with
        flagDrive :=
          if s.flagTriggered ∧ s.flagSet ∧ sub8 s.now s.flagTrigTime ≥ 2
          then false else s.flagDrive,
        flagSet :=
          if s.flagTriggered ∧ s.flagSet ∧ sub8 s.now s.flagTrigTime ≥ 2
          then false else s.flagSet } := by
  unfold pulseRelease
  split_ifs <;> simp

/-- The output block as simultaneous field assignments. -/
theorem outputUpdate_eq (s : State) :
    outputUpdate s =
      { s with
        ledRed := !s.powerOn && s.flagTriggered,
        ledGreen := s.powerOn,
        powerOut := s.powerOn } := by
  obtain ⟨now, bs, bt, ft, ftt, fs, po, ok, lr, lg, pw, fd⟩ := s
  unfold outputUpdate
  cases po <;> cases ft <;> simp

/-- C2 witness: fault at tick 0, acknowledging press at tick 1. -/
theorem C2_witness :
    (step afterFault pressIn).flagTriggered = false ∧
    (step afterFault pressIn).powerOn = afterFault.powerOn :=
  (C2_ack_press_then_power_press afterFault pressIn).1 rfl (by decide) (by decide)

/-! ## C3 -/

/-- C3: from a state in which an acknowledge pulse has just started
(`flagSet`, `flagDrive`, `flagTriggered` set, `flagTrigTime = now`), with
the button released, the line is still driven low after the tick-1
iteration whatever the raw fault sample does, and the first iteration
with 2 elapsed ticks releases it to high impedance, again independent of
the raw fault sample; `flagTriggered` stays set throughout. -/
theorem C3_pulse_fixed_width (s : State) (bf₁ bf₂ : Bool)
    (h1 : s.flagSet = true) (h2 : s.flagTriggered = true)
    (h3 : s.flagDrive = true) (h4 : s.flagTrigTime = s.now)
    (h5 : s.now < 256) :
    ((step s ⟨true, false, bf₁⟩).flagSet = true ∧
     (step s ⟨true, false, bf₁⟩).flagDrive = true ∧
     (step s ⟨true, false, bf₁⟩).flagTriggered = true) ∧
    ((step (step s ⟨true, false, bf₁⟩) ⟨true, false, bf₂⟩).flagSet = false ∧
     (step (step s ⟨true, false, bf₁⟩) ⟨true, false, bf₂⟩).flagDrive = false ∧
     (step (step s ⟨true, false, bf₁⟩) ⟨true, false, bf₂⟩).flagTriggered = true) := by
  obtain ⟨now, bs, bt, ft, ftt, fs, po, ok, lr, lg, pw, fd⟩ := s
  simp only at h1 h2 h3 h4 h5
  subst h1 h2 h3 h4
  have e1 : sub8 ((ftt + 1) % 256) ftt = 1 := by unfold sub8; omega
  have e2 : sub8 ((ftt + 1 + 1) % 256) ftt = 2 := by unfold sub8; omega
  have e3 : sub8 (((ftt + 1) % 256 + 1) % 256) ftt = 2 := by unfold sub8; omega
  cases bf₁ <;> cases bf₂ <;>
    simp [step, buttonUpdate_eq, faultUpdate_eq, pulseRelease_eq,
      outputUpdate_eq, tickNow, e1, e2, e3]

/-- C3 witness: pulse started by a fault at tick 0, raw fault input
released immediately afterwards (scenario C). -/
theorem C3_witness :
    ((step afterFault ⟨true, false, false⟩).flagSet = true ∧
     (step afterFault ⟨true, false, false⟩).flagDrive = true ∧
     (step afterFault ⟨true, false, false⟩).flagTriggered = true) ∧
    ((step (step afterFault ⟨true, false, false⟩) ⟨true, false, false⟩).flagSet = false ∧
     (step (step afterFault ⟨true, false, false⟩) ⟨true, false, false⟩).flagDrive = false ∧
     (step (step afterFault ⟨true, false, false⟩) ⟨true, false, false⟩).flagTriggered = true) :=
  C3_pulse_fixed_width afterFault false false (by decide) (by decide)
    (by decide) (by decide) (by decide)


/-! ## C4 -/

/-- With the raw fault sample asserted and no pulse currently active, the
iteration starts a fresh pulse whose start tick is the iteration's own
tick. -/
theorem step_repulse (s : State) (i : Input) (hf : i.flag = true)
    (hns : s.flagSet = false) :
    (step s i).flagSet = true ∧ (step s i).flagDrive = true ∧
    (step s i).flagTrigTime = tickNow s i := by
  obtain ⟨w, b, fl⟩ := i
  simp only at hf
  subst hf
  obtain ⟨now, bs, bt, ft, ftt, fs, po, ok, lr, lg, pw, fd⟩ := s
  simp only at hns
  subst hns
  have e0 : ∀ x : Nat, sub8 x x = 0 := by
    intro x
    unfold sub8
    omega
  cases w <;> cases b <;> cases bs <;> cases ok <;> cases ft <;>
    simp [step, buttonUpdate_eq, faultUpdate_eq, pulseRelease_eq,
      outputUpdate_eq, tickNow, e0]

/-- C4 counterexample: with the fault held asserted from tick 0, the
first pulse's release happens in the tick-2 iteration and no new pulse is
active at the end of tick 2 (the claim asserts a new pulse starts at
tick 2); the new pulse only starts at tick 3. -/
theorem C4_counterexample :
    (run initState (faultHeld 2)).now = 2 ∧
    (run initState (faultHeld 2)).flagSet = false ∧
    (run initState (faultHeld 2)).flagDrive = false ∧
    (run initState (faultHeld 3)).now = 3 ∧
    (run initState (faultHeld 3)).flagSet = true ∧
    (run initState (faultHeld 3)).flagTrigTime = 3 := by
  decide

/-- C4 amended: when a pulse has ended (no pulse active) and the fault
sample is still asserted, the next iteration immediately starts a new
pulse stamped with its own tick; with one iteration per tick and the
fault held from tick 0, the line is hence driven at ticks 0–1, released
at tick 2, driven again at ticks 3–4, released at tick 5, and so on with
period 3 ticks, the LED staying red and the power staying off
throughout. -/
theorem C4_amended_repulse_next_iteration :
    (∀ (s : State) (i : Input), i.flag = true → s.flagSet = false →
       (step s i).flagSet = true ∧ (step s i).flagDrive = true ∧
       (step s i).flagTrigTime = tickNow s i) ∧
    ((run initState (faultHeld 0)).flagDrive = true ∧
     (run initState (faultHeld 0)).flagTrigTime = 0 ∧
     (run initState (faultHeld 1)).flagDrive = true ∧
     (run initState (faultHeld 2)).flagDrive = false ∧
     (run initState (faultHeld 3)).flagDrive = true ∧
     (run initState (faultHeld 3)).flagTrigTime = 3 ∧
     (run initState (faultHeld 4)).flagDrive = true ∧
     (run initState (faultHeld 5)).flagDrive = false ∧
     (run initState (faultHeld 6)).flagDrive = true ∧
     (run initState (faultHeld 6)).flagTrigTime = 6 ∧
     (run initState (faultHeld 7)).flagDrive = true ∧
     (run initState (faultHeld 8)).flagDrive = false) ∧
    (∀ n, n ≤ 8 →
       (run initState ((faultHeld 8).take (n + 1))).ledRed = true ∧
       (run initState ((faultHeld 8).take (n + 1))).powerOn = false ∧
       (run initState ((faultHeld 8).take (n + 1))).powerOut = false) :=
  ⟨fun s i hf hns => step_repulse s i hf hns, by decide, by decide⟩

/-- C4 witness: the tick-2 state (pulse just ended, fault still asserted)
re-pulses in the next iteration. -/
theorem C4_witness :
    (step (run initState (faultHeld 2)) faultIn).flagSet = true ∧
    (step (run initState (faultHeld 2)) faultIn).flagDrive = true ∧
    (step (run initState (faultHeld 2)) faultIn).flagTrigTime
      = tickNow (run initState (faultHeld 2)) faultIn :=
  C4_amended_repulse_next_iteration.1 (run initState (faultHeld 2)) faultIn
    rfl (by decide)

/-! ## C6 -/

/-- C6 counterexample: running the spec's Scenario A literally (press at
tick 0, release at 1, press at 2, release at 3, press at 4), the press at
tick 4 is NOT accepted and `powerOn` is still true at the end of tick 4,
while the claim asserts the tick-4 press is accepted and turns the power
off. -/
theorem C6_counterexample :
    (run initState scenarioA).now = 4 ∧
    (run initState scenarioA).powerOn = true ∧
    pressAccepted (run initState (scenarioA.take 4)) pressIn = false := by
  decide

/-- C6 amended: the press at tick 0 is accepted (power on, LED green,
EN active); the press at tick 2 is ignored but still records
`btnTime = 2`, restarting the debounce window, so the press at tick 4 is
also ignored and the power stays on; with the button released during
ticks 5–7 the press at tick 8 is accepted and turns the power off. -/
theorem C6_amended_scenarioA :
    ((run initState (scenarioA.take 1)).powerOn = true ∧
     (run initState (scenarioA.take 1)).ledGreen = true ∧
     (run initState (scenarioA.take 1)).powerOut = true) ∧
    (pressAccepted (run initState (scenarioA.take 2)) pressIn = false ∧
     (run initState (scenarioA.take 3)).powerOn = true ∧
     (run initState (scenarioA.take 3)).btnTime = 2) ∧
    (pressAccepted (run initState (scenarioA.take 4)) pressIn = false ∧
     (run initState scenarioA).powerOn = true) ∧
    (pressAccepted (run initState (scenarioARetry.take 8)) pressIn = true ∧
     (run initState scenarioARetry).now = 8 ∧
     (run initState scenarioARetry).powerOn = false ∧
     (run initState scenarioARetry).powerOut = false) := by
  decide

/-! ## C10 -/

/-- The pulse-end block releases the line only when `flagTriggered` is
still set. -/
theorem release_only_when_triggered (s : State) (i : Input)
    (hset : s.flagSet = true) (hrel : (step s i).flagSet = false) :
    (step s i).flagTriggered = true := by
  obtain ⟨w, b, fl⟩ := i
  obtain ⟨now, bs, bt, ft, ftt, fs, po, ok, lr, lg, pw, fd⟩ := s
  simp only at hset
  subst hset
  cases fl <;> cases b <;> cases bs <;> cases ok <;> cases ft <;>
    simp_all [step, buttonUpdate_eq, faultUpdate_eq, pulseRelease_eq,
      outputUpdate_eq, tickNow]

/-- C10: the timed release of the fault line runs only in an iteration
whose final `flagTriggered` is still true; consequently, in the concrete
trace where a press at tick 1 clears `flagTriggered` while the tick-0
pulse is active and the fault input is already deasserted, the line stays
driven low through ticks 2–4 (past the 2-tick deadline) and is released
only when the fault asserts again at tick 5. -/
theorem C10_release_gated_by_trigger :
    (∀ (s : State) (i : Input), s.flagSet = true →
       (step s i).flagSet = false → (step s i).flagTriggered = true) ∧
    ((run initState (stuckLowTrace.take 2)).now = 1 ∧
     (run initState (stuckLowTrace.take 2)).flagTriggered = false ∧
     (run initState (stuckLowTrace.take 2)).flagDrive = true ∧
     (run initState (stuckLowTrace.take 2)).flagSet = true) ∧
    ((run initState (stuckLowTrace.take 3)).now = 2 ∧
     (run initState (stuckLowTrace.take 3)).flagDrive = true) ∧
    ((run initState (stuckLowTrace.take 5)).now = 4 ∧
     (run initState (stuckLowTrace.take 5)).flagDrive = true ∧
     (run initState (stuckLowTrace.take 5)).flagTriggered = false) ∧
    ((run initState stuckLowTrace).now = 5 ∧
     (run initState stuckLowTrace).flagTriggered = true ∧
     (run initState stuckLowTrace).flagSet = false ∧
     (run initState stuckLowTrace).flagDrive = false) :=
  ⟨release_only_when_triggered, by decide, by decide, by decide, by decide⟩

/-- C10 witness: the pulse running since tick 0 is released in the tick-2
iteration, in which `flagTriggered` is indeed still true. -/
theorem C10_witness :
    (step (run initState (faultHeld 1)) faultIn).flagTriggered = true :=
  C10_release_gated_by_trigger.1 (run initState (faultHeld 1)) faultIn
    (by decide) (by decide)

end UsbSwitch
